import Mathlib

/-!
Verification development for the simulation-engine core of the
IBM-Hackathon urban-planning repository.

The Python source (src/simulation-engine/src/) is shallowly embedded below:
Python floats are modelled as rationals (ℚ), Python dicts with a fixed key
set as structures, optional dict keys as `Option`, raised exceptions as
`Except.error`, and Python f-string number formatting as an explicit decimal
renderer (thousands separators and round-half-to-even tie behaviour are not
reproduced; no statement proved here depends on either).  The stochastic
draw `np.random.uniform(0.8, 1.2)` in the traffic model is modelled as an
explicit stream of draw values passed to the simulation.  The matplotlib
image rendering in `overlay_generator.py` is outside the embedding; only its
data accesses (which can raise `KeyError`) and its numeric threshold logic
are modelled.
-/

/-! ## Decimal rendering of numbers (Python f-string formatting) -/

/-- Fuel-indexed accumulation of the decimal digit characters of `n`, most
significant first.  With fuel at least the digit count this is exact. -/
def digitCharsAux : ℕ → ℕ → List Char
  | 0, _ => []
  | fuel+1, n => if n = 0 then [] else digitCharsAux fuel (n / 10) ++ [Nat.digitChar (n % 10)]

/-- Decimal rendering of a natural number, as Python renders it (without
thousands separators). -/
def digitsString (n : ℕ) : String :=
  if n = 0 then "0" else ⟨digitCharsAux (n + 1) n⟩

/-- Decimal rendering of an integer. -/
def intString (z : ℤ) : String :=
  (if z < 0 then "-" else "") ++ digitsString z.natAbs

/-- Rounding of a rational to the nearest integer, used to model the Python
format specifier `:.0f` (floor of q + 1/2; Python breaks exact ties to even,
a difference that no statement below exercises). -/
def pyRound (q : ℚ) : ℤ :=
  Int.fdiv (2 * q.num + (q.den : ℤ)) (2 * (q.den : ℤ))

/-- Model of the Python format `f"{q:,.0f}"` (without thousands separators). -/
def pyFmt0 (q : ℚ) : String := intString (pyRound q)

/-- Model of the Python format `f"{q:.1f}"`: one decimal digit. -/
def pyFmt1 (q : ℚ) : String :=
  let n := pyRound (q * 10)
  (if n < 0 then "-" else "") ++ digitsString (n.natAbs / 10) ++ "." ++ digitsString (n.natAbs % 10)

/-- Model of Python `str.strip()` on the strings produced by the summary
generator (whose only boundary whitespace is the space character). -/
def pyStrip (s : String) : String :=
  ⟨((s.data.dropWhile (· = ' ')).reverse.dropWhile (· = ' ')).reverse⟩

/-- The string `sub` occurs inside the string `s` (Python `sub in s`). -/
def mentions (s sub : String) : Prop := sub.data <:+: s.data

instance (s sub : String) : Decidable (mentions s sub) :=
  inferInstanceAs (Decidable (sub.data <:+: s.data))

/-! ## Data model (section 3 of the spec; pydantic models in main.py) -/

/-- A zone of the zoning plan (`Zone` in `main.py`; the `properties` map is
never read by the core and is omitted). -/
structure Zone where
  id : String
  type : String
  area : ℚ
  location_x : ℚ
  location_y : ℚ
deriving DecidableEq

/-- The `specifications` dict of an infrastructure edit, restricted to the
two keys the cost model reads; `none` models an absent key. -/
structure Specs where
  length_km : Option ℚ
  units : Option ℚ
deriving DecidableEq

/-- An infrastructure edit (`InfraEdit` in `main.py`). -/
structure InfraEdit where
  type : String
  action : String
  specifications : Specs
deriving DecidableEq

/-- Traffic-related inputs (`TrafficInputs` in `main.py`). -/
structure TrafficInputs where
  population_density : ℚ
  peak_hours : List String
  vehicle_ownership : ℚ
deriving DecidableEq

/-! ## Data Normalizer (data_processor.py) -/

/-- Embeds `DataProcessor.estimate_population`: accumulate the area of
residential and commercial zones and multiply by the density. -/
def estimate_population (zoning_plan : List Zone) (population_density : ℚ) : ℚ :=
  (zoning_plan.foldl
    (fun total_area zone =>
      if zone.type ∈ ["residential", "commercial"] then total_area + zone.area else total_area)
    0) * population_density

/-! ## Cost Model (models/cost_model.py) -/

/-- The `cost_factors` configuration table of `CostEstimationModel`. -/
structure CostFactors where
  residential_zone : ℚ
  commercial_zone : ℚ
  industrial_zone : ℚ
  green_space : ℚ
  road_km : ℚ
  utility_km : ℚ
  building_unit : ℚ
  maintenance_rate : ℚ
  service_cost_per_capita : ℚ

/-- The factor values set in `CostEstimationModel.__init__`. -/
def default_cost_factors : CostFactors :=
  ⟨100000, 150000, 120000, 50000, 500000, 300000, 200000, 5/100, 500⟩

/-- The `costs` dict of `_calculate_infrastructure_cost`. -/
structure CostBreakdown where
  zoning : ℚ
  roads : ℚ
  utilities : ℚ
  buildings : ℚ
deriving DecidableEq

/-- One iteration of the zoning-cost loop of `_calculate_infrastructure_cost`:
unknown zone types contribute nothing. -/
def zoning_cost_step (cf : CostFactors) (acc : ℚ) (zone : Zone) : ℚ :=
  if zone.type = "residential" then acc + zone.area * cf.residential_zone
  else if zone.type = "commercial" then acc + zone.area * cf.commercial_zone
  else if zone.type = "industrial" then acc + zone.area * cf.industrial_zone
  else if zone.type = "green_space" then acc + zone.area * cf.green_space
  else acc

/-- One iteration of the infrastructure-edit loop of
`_calculate_infrastructure_cost`: only `action == "add"` edits contribute,
and a missing `length_km`/`units` specification defaults to 1. -/
def infra_cost_step (cf : CostFactors) (acc : CostBreakdown) (edit : InfraEdit) : CostBreakdown :=
  if edit.action = "add" then
    if edit.type = "road" then
      { acc with roads := acc.roads + (edit.specifications.length_km.getD 1) * cf.road_km }
    else if edit.type = "utility" then
      { acc with utilities := acc.utilities + (edit.specifications.length_km.getD 1) * cf.utility_km }
    else if edit.type = "building" then
      { acc with buildings := acc.buildings + (edit.specifications.units.getD 1) * cf.building_unit }
    else acc
  else acc

/-- Embeds `CostEstimationModel._calculate_infrastructure_cost`. -/
def calculate_infrastructure_cost (cf : CostFactors) (zoning_plan : List Zone)
    (infra_edits : List InfraEdit) : CostBreakdown :=
  infra_edits.foldl (infra_cost_step cf)
    ⟨zoning_plan.foldl (zoning_cost_step cf) 0, 0, 0, 0⟩

/-- Embeds `CostEstimationModel._generate_budget_recommendations`. -/
def generate_budget_recommendations (total_cost annual_operational : ℚ) : List String :=
  (if total_cost > 10000000 then ["Consider phasing the project to manage costs"] else []) ++
  (if annual_operational > 1000000 then
    ["Explore public-private partnerships to share costs"] else []) ++
  ["Set aside 10% of total cost for contingencies",
   "Review financing options for long-term sustainability"]

/-- Embeds `CostEstimationModel._generate_financial_impact_summary`. -/
def generate_financial_impact_summary (total_cost cost_per_capita : ℚ) : String :=
  let scale := if total_cost < 1000000 then "relatively small"
    else if total_cost < 10000000 then "moderate" else "large"
  let burden := if cost_per_capita < 100 then "low"
    else if cost_per_capita < 500 then "moderate" else "high"
  "This is a " ++ scale ++ " scale project with a " ++ burden ++ " financial burden per capita."

/-- The `CostMetrics` dataclass of `cost_model.py`. -/
structure CostMetrics where
  total_cost : ℚ
  annual_operational : ℚ
  cost_per_capita : ℚ
  breakdown : CostBreakdown
  budget_recommendations : List String
  financial_impact_summary : String
deriving DecidableEq

/-- Embeds `CostEstimationModel.run_simulation` (the `traffic_inputs`
argument is accepted and unused, exactly as in the source). -/
def cost_run_simulation (cf : CostFactors) (zoning_plan : List Zone)
    (infra_edits : List InfraEdit) (_traffic_inputs : TrafficInputs)
    (population : ℚ) : CostMetrics :=
  let infrastructure_costs := calculate_infrastructure_cost cf zoning_plan infra_edits
  let total_infrastructure_cost := infrastructure_costs.zoning + infrastructure_costs.roads +
    infrastructure_costs.utilities + infrastructure_costs.buildings
  let annual_operational_cost := population * cf.service_cost_per_capita
  let annual_maintenance_cost := total_infrastructure_cost * cf.maintenance_rate
  let total_annual_operational := annual_operational_cost + annual_maintenance_cost
  let cost_per_capita := total_infrastructure_cost / max population 1
  ⟨total_infrastructure_cost, total_annual_operational, cost_per_capita, infrastructure_costs,
   generate_budget_recommendations total_infrastructure_cost total_annual_operational,
   generate_financial_impact_summary total_infrastructure_cost cost_per_capita⟩

/-! ## Pollution Model (models/pollution_model.py) -/

/-- The `pollution_factors` configuration table of `PollutionSimulationModel`. -/
structure PollutionFactors where
  residential_emissions : ℚ
  commercial_emissions : ℚ
  industrial_emissions : ℚ
  green_space_absorption : ℚ
  traffic_emissions : ℚ
  co2_per_industrial_unit : ℚ

/-- The factor values set in `PollutionSimulationModel.__init__`. -/
def default_pollution_factors : PollutionFactors :=
  ⟨1/2, 1, 2, 3/10, 2/10, 1000⟩

/-- The `emissions` dict of `_calculate_zone_emissions`. -/
structure ZoneEmissions where
  residential : ℚ
  commercial : ℚ
  industrial : ℚ
deriving DecidableEq

/-- One iteration of the loop of `_calculate_zone_emissions`. -/
def zone_emissions_step (pf : PollutionFactors) (acc : ZoneEmissions) (zone : Zone) :
    ZoneEmissions :=
  if zone.type = "residential" then
    { acc with residential := acc.residential + zone.area * pf.residential_emissions }
  else if zone.type = "commercial" then
    { acc with commercial := acc.commercial + zone.area * pf.commercial_emissions }
  else if zone.type = "industrial" then
    { acc with industrial := acc.industrial + zone.area * pf.industrial_emissions }
  else acc

/-- Embeds `PollutionSimulationModel._calculate_zone_emissions`. -/
def calculate_zone_emissions (pf : PollutionFactors) (zoning_plan : List Zone) : ZoneEmissions :=
  zoning_plan.foldl (zone_emissions_step pf) ⟨0, 0, 0⟩

/-- Embeds `PollutionSimulationModel._calculate_traffic_emissions`. -/
def calculate_traffic_emissions (pf : PollutionFactors) (traffic_inputs : TrafficInputs)
    (vehicle_ownership : ℚ) : ℚ :=
  traffic_inputs.population_density * vehicle_ownership * pf.traffic_emissions

/-- Embeds `PollutionSimulationModel._calculate_co2_emissions`. -/
def calculate_co2_emissions (pf : PollutionFactors) (zoning_plan : List Zone) : ℚ :=
  zoning_plan.foldl
    (fun acc zone =>
      if zone.type = "industrial" then acc + zone.area * pf.co2_per_industrial_unit else acc) 0

/-- Embeds `PollutionSimulationModel._calculate_green_space_benefit`. -/
def calculate_green_space_benefit (pf : PollutionFactors) (zoning_plan : List Zone) : ℚ :=
  (zoning_plan.foldl
    (fun acc zone => if zone.type = "green_space" then acc + zone.area else acc) 0) *
    pf.green_space_absorption

/-- Embeds `PollutionSimulationModel._calculate_air_quality_index`. -/
def calculate_air_quality_index (total_emissions green_space_benefit : ℚ) : ℚ :=
  let net_pollution := max (total_emissions - green_space_benefit) 0
  max (100 - net_pollution * (1/10)) 0

/-- Embeds `PollutionSimulationModel._identify_pollution_hotspots`. -/
def identify_pollution_hotspots (zoning_plan : List Zone) (traffic_inputs : TrafficInputs) : ℕ :=
  (zoning_plan.foldl (fun acc zone => if zone.type = "industrial" then acc + 1 else acc) 0) +
  (if traffic_inputs.population_density > 1000 then 1 else 0) +
  (if traffic_inputs.population_density > 2000 then 1 else 0)

/-- Embeds `PollutionSimulationModel._generate_mitigation_recommendations`. -/
def generate_mitigation_recommendations (air_quality_index : ℚ) (pollution_hotspots : ℕ) :
    List String :=
  (if air_quality_index < 50 then
    ["Implement stricter emission controls for industrial zones",
     "Increase green space coverage to improve air quality"] else []) ++
  (if air_quality_index < 70 then
    ["Promote public transportation to reduce vehicle emissions",
     "Encourage electric vehicle adoption"] else []) ++
  (if pollution_hotspots > 2 then
    ["Focus pollution monitoring efforts on identified hotspots",
     "Implement targeted emission reduction programs"] else []) ++
  ["Regular air quality monitoring and reporting",
   "Community education on pollution reduction practices"]

/-- Embeds `PollutionSimulationModel._generate_environmental_impact_summary`. -/
def generate_environmental_impact_summary (air_quality_index co2_emissions : ℚ) : String :=
  let air_quality := if air_quality_index > 80 then "excellent"
    else if air_quality_index > 60 then "good"
    else if air_quality_index > 40 then "moderate" else "poor"
  let carbon_footprint := if co2_emissions < 10000 then "low"
    else if co2_emissions < 50000 then "moderate" else "high"
  "Air quality is " ++ air_quality ++ " with a " ++ carbon_footprint ++ " carbon footprint."

/-- The `PollutionMetrics` dataclass of `pollution_model.py` (the
`pollution_map` placeholder geometry is auxiliary and omitted). -/
structure PollutionMetrics where
  air_quality_index : ℚ
  co2_emissions : ℚ
  pollution_hotspots : ℕ
  recommendations : List String
  environmental_impact_score : String
deriving DecidableEq

/-- Embeds `PollutionSimulationModel.run_simulation` (the `infra_edits`
argument is accepted and unused, exactly as in the source). -/
def pollution_run_simulation (pf : PollutionFactors) (zoning_plan : List Zone)
    (_infra_edits : List InfraEdit) (traffic_inputs : TrafficInputs) : PollutionMetrics :=
  let zone_emissions := calculate_zone_emissions pf zoning_plan
  let total_zone_emissions := zone_emissions.residential + zone_emissions.commercial +
    zone_emissions.industrial
  let vehicle_ownership := traffic_inputs.vehicle_ownership
  let traffic_emissions := calculate_traffic_emissions pf traffic_inputs vehicle_ownership
  let co2_emissions := calculate_co2_emissions pf zoning_plan
  let total_emissions := total_zone_emissions + traffic_emissions + co2_emissions
  let green_space_benefit := calculate_green_space_benefit pf zoning_plan
  let air_quality_index := calculate_air_quality_index total_emissions green_space_benefit
  let pollution_hotspots := identify_pollution_hotspots zoning_plan traffic_inputs
  ⟨air_quality_index, co2_emissions, pollution_hotspots,
   generate_mitigation_recommendations air_quality_index pollution_hotspots,
   generate_environmental_impact_summary air_quality_index co2_emissions⟩

/-! ## Traffic Model (models/traffic_model.py) -/

/-- The `TrafficMetrics` dataclass of `traffic_model.py` (the `flow_map` and
`congestion_heatmap` placeholder geometry is auxiliary and omitted). -/
structure TrafficMetrics where
  avg_travel_time : ℚ
  congestion_index : ℚ
  total_volume : ℚ
deriving DecidableEq

/-- Embeds `TrafficSimulationModel._build_road_network`: each road edit with
action `add` creates exactly one isolated edge between two fresh nodes, and
`remove`/`modify` road edits are no-ops, so the resulting graph is fully
described by its edge count. -/
def build_road_network (infra_edits : List InfraEdit) : ℕ :=
  infra_edits.foldl
    (fun n edit => if edit.type = "road" ∧ edit.action = "add" then n + 1 else n) 0

/-- Embeds `TrafficSimulationModel._calculate_congestion`: one congestion
value per edge; `rng i` is the value drawn by `np.random.uniform(0.8, 1.2)`
for the i-th edge. -/
def calculate_congestion (edge_count : ℕ) (population_density : ℚ) (rng : ℕ → ℚ) : List ℚ :=
  (List.range edge_count).map (fun i => population_density * (1/1000) * rng i)

/-- Embeds `TrafficSimulationModel._calculate_travel_times`: per-edge travel
time is the 10.0-minute base time scaled by that edge's congestion factor. -/
def calculate_travel_times (congestion_levels : List ℚ) : List ℚ :=
  congestion_levels.map (fun c => 10 * c)

/-- Embeds `TrafficSimulationModel.run_simulation`; `np.mean` of an empty
collection is modelled by the explicit 0 the source substitutes. -/
def traffic_run_simulation (_zoning_plan : List Zone) (infra_edits : List InfraEdit)
    (traffic_inputs : TrafficInputs) (rng : ℕ → ℚ) : TrafficMetrics :=
  let population_density := traffic_inputs.population_density
  let edge_count := build_road_network infra_edits
  let congestion_levels := calculate_congestion edge_count population_density rng
  let travel_times := calculate_travel_times congestion_levels
  let avg_travel_time := if travel_times = [] then 0 else
    travel_times.sum / (travel_times.length : ℚ)
  let congestion_index := if congestion_levels = [] then 0 else
    congestion_levels.sum / (congestion_levels.length : ℚ)
  let total_volume := (edge_count : ℚ) * population_density * (1/100)
  ⟨avg_travel_time, congestion_index, total_volume⟩

/-! ## Combined results (the dict shape produced by the fan-out in
data_processor.run_selected_simulations and consumed downstream) -/

/-- One model's slot in the combined results dict.  A successful slot has a
`metrics` sub-dict (and, for the pollution model, a `recommendations` list);
a failed slot carries only an `error` message.  `none` in a field models the
absence of that key. -/
structure Slot (M : Type) where
  metrics : Option M
  recommendations : Option (List String)
  err : Option String
deriving DecidableEq

/-- The `metrics` sub-dict of a traffic slot. -/
structure TrafficMetricsDict where
  avg_travel_time : ℚ
  congestion_index : ℚ
  total_volume : ℚ
deriving DecidableEq

/-- The `metrics` sub-dict of a cost slot. -/
structure CostMetricsDict where
  total_cost : ℚ
  annual_operational : ℚ
  cost_per_capita : ℚ
deriving DecidableEq

/-- The `metrics` sub-dict of a pollution slot. -/
structure PollutionMetricsDict where
  air_quality_index : ℚ
  co2_emissions : ℚ
  pollution_hotspots : ℕ
deriving DecidableEq

/-- The combined results dict keyed by model name; `none` models an absent
model key. -/
structure CombinedResults where
  traffic : Option (Slot TrafficMetricsDict)
  cost : Option (Slot CostMetricsDict)
  pollution : Option (Slot PollutionMetricsDict)
deriving DecidableEq

/-- The traffic slot built by `run_selected_simulations` on success (its
`spatial_overlay` copy of the placeholder flow map is omitted). -/
def traffic_ok_slot (t : TrafficMetrics) : Slot TrafficMetricsDict :=
  ⟨some ⟨t.avg_travel_time, t.congestion_index, t.total_volume⟩, none, none⟩

/-- The cost slot built by `run_selected_simulations` on success (the slot
carries `metrics` and `breakdown` but no `recommendations` key). -/
def cost_ok_slot (c : CostMetrics) : Slot CostMetricsDict :=
  ⟨some ⟨c.total_cost, c.annual_operational, c.cost_per_capita⟩, none, none⟩

/-- The pollution slot built by `run_selected_simulations` on success. -/
def pollution_ok_slot (p : PollutionMetrics) : Slot PollutionMetricsDict :=
  ⟨some ⟨p.air_quality_index, p.co2_emissions, p.pollution_hotspots⟩, some p.recommendations, none⟩

/-- An error slot `{"error": message}`. -/
def error_slot {M : Type} (message : String) : Slot M :=
  ⟨none, none, some message⟩

/-- The normalized data produced by `DataProcessor.process_input_data`. -/
structure ProcessedData where
  zoning_plan : List Zone
  infra_edits : List InfraEdit
  traffic_inputs : TrafficInputs
  population : ℚ
  models_to_run : List String

/-- The request body consumed by the `/simulate` endpoint
(`SimulationInput` in `main.py`). -/
structure SimulationInput where
  zoning_plan : List Zone
  infra_edits : List InfraEdit
  traffic_inputs : TrafficInputs
  models : List String
  time_horizon : String
  scenarios : List String

/-- Embeds `DataProcessor.process_input_data`. -/
def process_input_data (input : SimulationInput) : ProcessedData :=
  ⟨input.zoning_plan, input.infra_edits, input.traffic_inputs,
   estimate_population input.zoning_plan input.traffic_inputs.population_density,
   input.models⟩

/-- Embeds `DataProcessor.run_selected_simulations`.  Each selected model's
computation happens inside a `try`/`except` at the fan-out boundary; the
parameters `traffic_outcome`, `cost_outcome` and `pollution_outcome` are the
outcomes of those computations (`Except.error m` models an exception with
message `m` raised inside the model); an exception is converted into an
error slot and never propagates.  In normal operation
`traffic_outcome = .ok (traffic_run_simulation ...)` and so on. -/
def run_selected_simulations (pd : ProcessedData)
    (traffic_outcome : Except String TrafficMetrics)
    (cost_outcome : Except String CostMetrics)
    (pollution_outcome : Except String PollutionMetrics) : CombinedResults :=
  ⟨if "traffic" ∈ pd.models_to_run then
      some (match traffic_outcome with
        | .ok t => traffic_ok_slot t
        | .error e => error_slot ("Traffic simulation failed: " ++ e))
    else none,
   if "cost" ∈ pd.models_to_run then
      some (match cost_outcome with
        | .ok c => cost_ok_slot c
        | .error e => error_slot ("Cost simulation failed: " ++ e))
    else none,
   if "pollution" ∈ pd.models_to_run then
      some (match pollution_outcome with
        | .ok p => pollution_ok_slot p
        | .error e => error_slot ("Pollution simulation failed: " ++ e))
    else none⟩

/-! ## Summary Generator (summary_generator.py) -/

/-- Embeds `SummaryGenerator.generate_executive_summary`. -/
def generate_executive_summary (results : CombinedResults) : String :=
  let traffic_congestion := match results.traffic with
    | some slot => match slot.metrics with
      | some m => m.congestion_index
      | none => 0
    | none => 0
  let cost_total := match results.cost with
    | some slot => match slot.metrics with
      | some m => m.total_cost
      | none => 0
    | none => 0
  let pollution_aqi := match results.pollution with
    | some slot => match slot.metrics with
      | some m => m.air_quality_index
      | none => 50
    | none => 50
  let traffic_desc := if traffic_congestion < 1/2 then "excellent traffic flow"
    else if traffic_congestion < 1 then "good traffic flow"
    else if traffic_congestion < 3/2 then "moderate traffic congestion"
    else "severe traffic congestion"
  let cost_desc := if cost_total < 1000000 then "relatively low"
    else if cost_total < 5000000 then "moderate" else "high"
  let air_quality_desc := if pollution_aqi > 80 then "excellent"
    else if pollution_aqi > 60 then "good"
    else if pollution_aqi > 40 then "moderate" else "poor"
  let summary := "This urban planning simulation indicates " ++ traffic_desc ++ " with " ++
    air_quality_desc ++ " air quality. The total project cost is " ++ cost_desc ++
    ", amounting to $" ++ pyFmt0 cost_total ++ ". "
  let summary := if results.traffic.isSome ∧ results.pollution.isSome then
      (if traffic_congestion > 1 ∧ pollution_aqi < 50 then
        summary ++ "The high traffic congestion combined with poor air quality suggests a need for mitigation measures. "
      else if traffic_congestion < 1/2 ∧ pollution_aqi > 70 then
        summary ++ "The efficient traffic flow with good air quality creates positive conditions for urban development. "
      else summary)
    else summary
  pyStrip summary

/-- Embeds `SummaryGenerator.generate_key_findings`. -/
def generate_key_findings (results : CombinedResults) : List String :=
  (match results.traffic with
   | some slot => match slot.metrics with
     | some m =>
       if m.congestion_index < 1/2 then
         ["Traffic flow is efficient with an average travel time of " ++
          pyFmt1 m.avg_travel_time ++ " minutes."]
       else if m.congestion_index > 3/2 then
         ["Significant traffic congestion identified with average travel time of " ++
          pyFmt1 m.avg_travel_time ++ " minutes."]
       else
         ["Moderate traffic conditions with average travel time of " ++
          pyFmt1 m.avg_travel_time ++ " minutes."]
     | none => []
   | none => []) ++
  (match results.cost with
   | some slot => match slot.metrics with
     | some m =>
       ["Total project cost estimated at $" ++ pyFmt0 m.total_cost ++ " ($" ++
        pyFmt0 m.cost_per_capita ++ " per capita)."]
     | none => []
   | none => []) ++
  (match results.pollution with
   | some slot => match slot.metrics with
     | some m =>
       (if m.air_quality_index > 70 then
         ["Air quality is good with an Air Quality Index of " ++
          pyFmt0 m.air_quality_index ++ "."]
       else if m.air_quality_index > 50 then
         ["Air quality is moderate with an Air Quality Index of " ++
          pyFmt0 m.air_quality_index ++ "."]
       else
         ["Air quality concerns with an Air Quality Index of " ++
          pyFmt0 m.air_quality_index ++ "."]) ++
       ["Annual CO2 emissions estimated at " ++ pyFmt0 m.co2_emissions ++ " kg."] ++
       (if m.pollution_hotspots > 0 then
         [digitsString m.pollution_hotspots ++
          " pollution hotspots identified requiring targeted mitigation."]
       else [])
     | none => []
   | none => [])

/-- Embeds the order-preserving de-duplication loop at the end of
`SummaryGenerator.generate_recommendations`. -/
def dedup_preserving_order (recommendations : List String) : List String :=
  recommendations.foldl (fun acc r => if r ∈ acc then acc else acc ++ [r]) []

/-- Embeds `SummaryGenerator.generate_recommendations`. -/
def generate_recommendations (results : CombinedResults) : List String :=
  let base :=
    (match results.traffic with
     | some slot => match slot.metrics with
       | some m =>
         if m.congestion_index > 3/2 then
           ["Implement traffic management measures to reduce congestion.",
            "Consider public transportation improvements to reduce vehicle dependency."]
         else if m.congestion_index > 1 then
           ["Monitor traffic patterns and consider minor infrastructure improvements."]
         else []
       | none => []
     | none => []) ++
    (match results.cost with
     | some slot => match slot.metrics with
       | some m =>
         if m.total_cost > 10000000 then
           ["Consider phasing the project to manage costs.",
            "Explore public-private partnerships to share costs."]
         else []
       | none => []
     | none => []) ++
    (match results.pollution with
     | some slot => match slot.metrics with
       | some m =>
         (if m.air_quality_index < 50 then
           ["Implement stricter emission controls for industrial zones.",
            "Increase green space coverage to improve air quality."]
         else []) ++
         (if m.air_quality_index < 70 then
           ["Promote public transportation to reduce vehicle emissions.",
            "Encourage electric vehicle adoption."]
         else []) ++
         (if m.pollution_hotspots > 2 then
           ["Focus pollution monitoring efforts on identified hotspots.",
            "Implement targeted emission reduction programs."]
         else [])
       | none => []
     | none => []) ++
    ["Regular monitoring and reporting of key metrics.",
     "Community engagement on planning decisions and impacts."] ++
    (match results.cost with
     | some slot => slot.recommendations.getD []
     | none => []) ++
    (match results.pollution with
     | some slot => slot.recommendations.getD []
     | none => [])
  dedup_preserving_order base

/-- The dict returned by `generate_comprehensive_summary`. -/
structure ComprehensiveSummary where
  executive_summary : String
  key_findings : List String
  recommendations : List String
deriving DecidableEq

/-- Embeds `SummaryGenerator.generate_comprehensive_summary`. -/
def generate_comprehensive_summary (results : CombinedResults) : ComprehensiveSummary :=
  ⟨generate_executive_summary results, generate_key_findings results,
   generate_recommendations results⟩

/-! ## Result Aggregator (result_aggregator.py) -/

/-- Embeds `ResultAggregator.aggregate_results`: the signature takes all
three model results and builds one keyed structure from them. -/
def aggregate_results (traffic_results : TrafficMetrics) (cost_results : CostMetrics)
    (pollution_results : PollutionMetrics) : CombinedResults :=
  ⟨some (traffic_ok_slot traffic_results),
   some (cost_ok_slot cost_results),
   some (pollution_ok_slot pollution_results)⟩

/-- Python dict subscription `results[key]["metrics"]` over a slot: raises
`KeyError` (modelled as `Except.error`) when the model key or its `metrics`
sub-key is absent. -/
def subscript_metrics {M : Type} (slot : Option (Slot M)) (key : String) : Except String M :=
  match slot with
  | none => .error ("KeyError: " ++ key)
  | some s => match s.metrics with
    | none => .error "KeyError: metrics"
    | some m => .ok m

/-- The dict returned by `create_comparative_analysis`. -/
structure ComparativeAnalysis where
  tradeoffs : List String
  synergies : List String
  conflicts : List String
  overall_score : ℚ
deriving DecidableEq

/-- Embeds `ResultAggregator.create_comparative_analysis`, including the
unconditional subscriptions of the `traffic`, `cost` and `pollution` keys. -/
def create_comparative_analysis (results : CombinedResults) :
    Except String ComparativeAnalysis := do
  let tm ← subscript_metrics results.traffic "traffic"
  let cm ← subscript_metrics results.cost "cost"
  let pm ← subscript_metrics results.pollution "pollution"
  let traffic_congestion := tm.congestion_index
  let cost_total := cm.total_cost
  let pollution_aqi := pm.air_quality_index
  let tradeoffs :=
    (if traffic_congestion > 1 then
      ["High traffic congestion may require infrastructure investment"] else []) ++
    (if cost_total > 1000000 then ["High costs may limit project scope"] else []) ++
    (if pollution_aqi < 50 then ["Poor air quality requires mitigation measures"] else [])
  let synergies := if traffic_congestion < 1/2 ∧ pollution_aqi > 70 then
      ["Good traffic flow with low pollution creates positive synergy"] else []
  let conflicts := if traffic_congestion > 3/2 ∧ pollution_aqi < 40 then
      ["High traffic congestion conflicts with poor air quality"] else []
  let traffic_score := max 0 (100 - traffic_congestion * 20)
  let cost_score := max 0 (100 - cost_total / 10000)
  let pollution_score := pollution_aqi
  .ok ⟨tradeoffs, synergies, conflicts, (traffic_score + cost_score + pollution_score) / 3⟩

/-- One entry of the `map_updates` list of `generate_update_diffs`. -/
structure MapUpdate where
  update_type : String
  layer : String
  feature : String
  level : String
deriving DecidableEq

/-- The dict returned by `generate_update_diffs`. -/
structure UpdateDiffs where
  map_updates : List MapUpdate
  layer_updates : List MapUpdate
deriving DecidableEq

/-- Embeds `ResultAggregator.generate_update_diffs`, including the
unconditional subscriptions of the `traffic`, `pollution` and `cost` keys
(in the order the source reads them). -/
def generate_update_diffs (results : CombinedResults) : Except String UpdateDiffs := do
  let tm ← subscript_metrics results.traffic "traffic"
  let pm ← subscript_metrics results.pollution "pollution"
  let cm ← subscript_metrics results.cost "cost"
  let map_updates :=
    (if tm.congestion_index > 1 then
      [MapUpdate.mk "add" "traffic" "congestion_zone" "high"] else []) ++
    (if pm.air_quality_index < 50 then
      [MapUpdate.mk "add" "pollution" "poor_air_quality_zone" "poor"] else []) ++
    (if cm.total_cost > 1000000 then
      [MapUpdate.mk "add" "cost" "high_cost_zone" "high"] else [])
  .ok ⟨map_updates, []⟩

/-! ## Overlay Generator (overlay_generator.py) -/

/-- The data content of an overlay image: the colour chosen by the threshold
logic and the text annotation drawn on the figure (the rendered base64 png
itself is outside the embedding). -/
structure OverlayData where
  color : String
  annotation : List String
deriving DecidableEq

/-- Embeds the data accesses and threshold logic of
`OverlayGenerator.generate_traffic_overlay`: subscripting
`traffic_results["metrics"]` raises `KeyError` on an error slot. -/
def generate_traffic_overlay (traffic_results : Slot TrafficMetricsDict) :
    Except String OverlayData :=
  match traffic_results.metrics with
  | none => .error "KeyError: metrics"
  | some m =>
    let color := if m.congestion_index < 1/2 then "green"
      else if m.congestion_index < 1 then "yellow"
      else if m.congestion_index < 3/2 then "orange" else "red"
    .ok ⟨color, ["Congestion Index: " ++ pyFmt1 m.congestion_index]⟩

/-- Embeds the data accesses of `OverlayGenerator.generate_cost_overlay`. -/
def generate_cost_overlay (cost_results : Slot CostMetricsDict) : Except String OverlayData :=
  match cost_results.metrics with
  | none => .error "KeyError: metrics"
  | some m =>
    .ok ⟨"YlOrRd", ["Total Cost: $" ++ pyFmt1 (m.total_cost / 1000000) ++ "M"]⟩

/-- Embeds the data accesses and threshold logic of
`OverlayGenerator.generate_pollution_overlay`. -/
def generate_pollution_overlay (pollution_results : Slot PollutionMetricsDict) :
    Except String OverlayData :=
  match pollution_results.metrics with
  | none => .error "KeyError: metrics"
  | some m =>
    let color := if m.air_quality_index > 80 then "green"
      else if m.air_quality_index > 60 then "yellow"
      else if m.air_quality_index > 40 then "orange" else "red"
    .ok ⟨color, ["AQI: " ++ pyFmt0 m.air_quality_index,
      "CO2: " ++ pyFmt0 (m.co2_emissions / 1000) ++ " tons",
      "Hotspots: " ++ digitsString m.pollution_hotspots]⟩

/-- Embeds the summary panel of `OverlayGenerator.generate_combined_overlay`
(a total function: every access is guarded by key-presence checks). -/
def generate_combined_overlay (results : CombinedResults) : String :=
  let parts :=
    (match results.traffic with
     | some slot => match slot.metrics with
       | some m => ["Traffic: " ++ pyFmt1 m.congestion_index]
       | none => []
     | none => []) ++
    (match results.cost with
     | some slot => match slot.metrics with
       | some m => ["Cost: $" ++ pyFmt1 (m.total_cost / 1000000) ++ "M"]
       | none => []
     | none => []) ++
    (match results.pollution with
     | some slot => match slot.metrics with
       | some m => ["AQI: " ++ pyFmt0 m.air_quality_index]
       | none => []
     | none => [])
  if parts = [] then "No Data Available" else String.intercalate "\n" parts

/-! ## The /simulate endpoint (main.py run_simulation) -/

/-- The response of the `/simulate` endpoint (`SimulationResult` in
`main.py`; its constant id/timestamp fields and the always-empty
`update_diffs` dict are omitted). -/
structure SimulationResult where
  results : CombinedResults
  summary : ComprehensiveSummary
  traffic_overlay : Option OverlayData
  cost_overlay : Option OverlayData
  pollution_overlay : Option OverlayData
  combined_overlay : Option String
deriving DecidableEq

/-- The body of the `/simulate` handler before its `except` clause:
normalization, fan-out, summary, then per-model overlay generation (which
subscripts `["metrics"]` on each present slot and therefore raises on an
error slot). -/
def run_simulation_body (input : SimulationInput)
    (traffic_outcome : Except String TrafficMetrics)
    (cost_outcome : Except String CostMetrics)
    (pollution_outcome : Except String PollutionMetrics) : Except String SimulationResult := do
  let pd := process_input_data input
  let results := run_selected_simulations pd traffic_outcome cost_outcome pollution_outcome
  let summary := generate_comprehensive_summary results
  let traffic_overlay ← match results.traffic with
    | some slot => do
      let ov ← generate_traffic_overlay slot
      pure (some ov)
    | none => pure none
  let cost_overlay ← match results.cost with
    | some slot => do
      let ov ← generate_cost_overlay slot
      pure (some ov)
    | none => pure none
  let pollution_overlay ← match results.pollution with
    | some slot => do
      let ov ← generate_pollution_overlay slot
      pure (some ov)
    | none => pure none
  let combined_overlay := if results.traffic.isSome ∨ results.cost.isSome ∨
      results.pollution.isSome then some (generate_combined_overlay results) else none
  .ok ⟨results, summary, traffic_overlay, cost_overlay, pollution_overlay, combined_overlay⟩

/-- Embeds the `/simulate` handler `run_simulation` of `main.py`: any
exception escaping the body is caught and surfaced to the caller as an HTTP
500 failure with detail `Simulation failed: ...`. -/
def run_simulation_endpoint (input : SimulationInput)
    (traffic_outcome : Except String TrafficMetrics)
    (cost_outcome : Except String CostMetrics)
    (pollution_outcome : Except String PollutionMetrics) : Except String SimulationResult :=
  match run_simulation_body input traffic_outcome cost_outcome pollution_outcome with
  | .ok r => .ok r
  | .error e => .error ("Simulation failed: " ++ e)

/-! ## Auxiliary definitions used by the statements below -/

/-- A model key is present in the combined results with a `metrics` sub-dict. -/
def slot_has_metrics {M : Type} : Option (Slot M) → Bool
  | some s => s.metrics.isSome
  | none => false

/-- The computation finished without an exception. -/
def except_ok {ε α : Type} : Except ε α → Bool
  | .ok _ => true
  | .error _ => false

/-- A combined results dict holding only a cost section (with metrics and no
`recommendations` key), as in the spec example `{"cost": {...}}`. -/
def cost_only (m : CostMetricsDict) : CombinedResults :=
  ⟨none, some ⟨some m, none, none⟩, none⟩

/-- Concrete cost-only combined results used as a counterexample input. -/
def cost_only_example : CombinedResults := cost_only ⟨5000000, 500000, 500⟩

/-- Concrete cost-only combined results handed to the aggregator. -/
def cost_only_aggregated : CombinedResults :=
  ⟨none, some ⟨some ⟨5000000, 500000, 500⟩, none, none⟩, none⟩

/-- A request that selects zero models. -/
def zero_models_input : SimulationInput :=
  ⟨[], [], ⟨0, [], 0⟩, [], "5 years", ["optimistic"]⟩

/-- A request that selects the traffic and cost models. -/
def traffic_cost_input : SimulationInput :=
  ⟨[], [], ⟨0, [], 0⟩, ["traffic", "cost"], "5 years", ["optimistic"]⟩

/-- Processed data whose options select all three models. -/
def all_models_processed : ProcessedData :=
  ⟨[], [], ⟨0, [], 0⟩, 0, ["traffic", "cost", "pollution"]⟩

/-- A successful cost-model result used as a concrete outcome. -/
def sample_cost_metrics : CostMetrics := ⟨0, 0, 0, ⟨0, 0, 0, 0⟩, [], "ok"⟩

/-- The single residential zone of area 1000 from spec Scenario A. -/
def residential_zone_1000 : Zone := ⟨"zone1", "residential", 1000, 0, 0⟩

/-- The traffic inputs of the worked examples (density 1000, ownership 0.8). -/
def sample_traffic_inputs : TrafficInputs := ⟨1000, ["08:00", "17:00"], 4/5⟩

/-- One `add`-action road edit with no specifications. -/
def one_road_edit : InfraEdit := ⟨"road", "add", ⟨none, none⟩⟩

/-! ## Fold characterization lemmas -/

lemma qualifying_area_foldl (l : List Zone) (a : ℚ) :
    l.foldl
      (fun total_area zone =>
        if zone.type ∈ ["residential", "commercial"] then total_area + zone.area else total_area)
      a =
    a + ((l.filter
      (fun zone => zone.type ∈ (["residential", "commercial"] : List String))).map Zone.area).sum := by
  induction l generalizing a with
  | nil => simp
  | cons z l ih =>
    rw [List.foldl_cons, ih, List.filter_cons]
    by_cases h : z.type ∈ (["residential", "commercial"] : List String)
    · rw [if_pos h, if_pos (decide_eq_true h), List.map_cons, List.sum_cons]
      ring
    · rw [if_neg h, if_neg (by simp [h])]

lemma zoning_foldl (cf : CostFactors) (l : List Zone) (a : ℚ) :
    l.foldl (zoning_cost_step cf) a =
      a + ((l.filter (fun z => z.type = "residential")).map Zone.area).sum * cf.residential_zone
        + ((l.filter (fun z => z.type = "commercial")).map Zone.area).sum * cf.commercial_zone
        + ((l.filter (fun z => z.type = "industrial")).map Zone.area).sum * cf.industrial_zone
        + ((l.filter (fun z => z.type = "green_space")).map Zone.area).sum * cf.green_space := by
  induction l generalizing a with
  | nil => simp
  | cons z l ih =>
    rw [List.foldl_cons, ih]
    unfold zoning_cost_step
    by_cases h1 : z.type = "residential"
    · simp [h1]; ring
    · by_cases h2 : z.type = "commercial"
      · simp [h1, h2]; ring
      · by_cases h3 : z.type = "industrial"
        · simp [h1, h2, h3]; ring
        · by_cases h4 : z.type = "green_space"
          · simp [h1, h2, h3, h4]; ring
          · simp [h1, h2, h3, h4]

lemma infra_foldl (cf : CostFactors) (l : List InfraEdit) (acc : CostBreakdown) :
    l.foldl (infra_cost_step cf) acc =
      ⟨acc.zoning,
       acc.roads + ((l.filter (fun e => e.action = "add" ∧ e.type = "road")).map
         (fun e => e.specifications.length_km.getD 1)).sum * cf.road_km,
       acc.utilities + ((l.filter (fun e => e.action = "add" ∧ e.type = "utility")).map
         (fun e => e.specifications.length_km.getD 1)).sum * cf.utility_km,
       acc.buildings + ((l.filter (fun e => e.action = "add" ∧ e.type = "building")).map
         (fun e => e.specifications.units.getD 1)).sum * cf.building_unit⟩ := by
  induction l generalizing acc with
  | nil => simp
  | cons e l ih =>
    rw [List.foldl_cons, ih]
    unfold infra_cost_step
    by_cases ha : e.action = "add"
    · by_cases h1 : e.type = "road"
      · simp [ha, h1, CostBreakdown.mk.injEq]
        ring
      · by_cases h2 : e.type = "utility"
        · simp [ha, h1, h2, CostBreakdown.mk.injEq]
          ring
        · by_cases h3 : e.type = "building"
          · simp [ha, h1, h2, h3, CostBreakdown.mk.injEq]
            ring
          · simp [ha, h1, h2, h3]
    · simp [ha]

/-- C6: for every zoning plan and density, `estimate_population` returns
density times the summed area of residential and commercial zones; other
zone types never contribute, and one residential zone of area 1000 at
density 1000 gives population 1,000,000. -/
theorem c6_estimate_population_spec :
    (∀ (zoning_plan : List Zone) (density : ℚ),
      estimate_population zoning_plan density =
        density * ((zoning_plan.filter
          (fun zone => zone.type ∈ (["residential", "commercial"] : List String))).map
            Zone.area).sum) ∧
    estimate_population [residential_zone_1000] 1000 = 1000000 := by
  constructor
  · intro plan density
    rw [estimate_population, qualifying_area_foldl]
    ring
  · norm_num [estimate_population, residential_zone_1000]

/-- C10: an `add` edit whose specifications omit the relevant size field is
costed with the default of 1 km (roads, utilities) or 1 unit (buildings),
adding the full per-unit factor to the corresponding cost bucket rather
than zero. -/
theorem c10_missing_specification_defaults (zoning_plan : List Zone)
    (infra_edits : List InfraEdit) (sr su sb : Specs)
    (hr : sr.length_km = none) (hu : su.length_km = none) (hb : sb.units = none) :
    (calculate_infrastructure_cost default_cost_factors zoning_plan
        (infra_edits ++ [⟨"road", "add", sr⟩])).roads =
      (calculate_infrastructure_cost default_cost_factors zoning_plan infra_edits).roads +
        500000 ∧
    (calculate_infrastructure_cost default_cost_factors zoning_plan
        (infra_edits ++ [⟨"utility", "add", su⟩])).utilities =
      (calculate_infrastructure_cost default_cost_factors zoning_plan infra_edits).utilities +
        300000 ∧
    (calculate_infrastructure_cost default_cost_factors zoning_plan
        (infra_edits ++ [⟨"building", "add", sb⟩])).buildings =
      (calculate_infrastructure_cost default_cost_factors zoning_plan infra_edits).buildings +
        200000 := by
  unfold calculate_infrastructure_cost
  rw [List.foldl_append, List.foldl_append, List.foldl_append]
  refine ⟨?_, ?_, ?_⟩ <;>
    simp [infra_cost_step, hr, hu, hb, default_cost_factors] <;> norm_num

/-- Witness for C10 at a concrete empty-specification edit. -/
theorem c10_witness :
    (calculate_infrastructure_cost default_cost_factors [] [one_road_edit]).roads =
      (calculate_infrastructure_cost default_cost_factors [] []).roads + 500000 := by
  exact (c10_missing_specification_defaults [] [] ⟨none, none⟩ ⟨none, none⟩ ⟨none, none⟩
    rfl rfl rfl).1

/-- C7: the cost model's total cost is the zoning cost plus the
infrastructure cost of `add` edits only (length times 500000 for roads,
length times 300000 for utilities, units times 200000 for buildings);
`modify` and `remove` edits contribute nothing, and Scenario A (one
residential zone of area 1000, no edits) yields exactly 100,000,000. -/
theorem c7_total_cost_formula :
    (∀ (zoning_plan : List Zone) (infra_edits : List InfraEdit) (ti : TrafficInputs)
      (population : ℚ),
      (cost_run_simulation default_cost_factors zoning_plan infra_edits ti
        population).total_cost =
        (((zoning_plan.filter (fun z => z.type = "residential")).map Zone.area).sum * 100000 +
         ((zoning_plan.filter (fun z => z.type = "commercial")).map Zone.area).sum * 150000 +
         ((zoning_plan.filter (fun z => z.type = "industrial")).map Zone.area).sum * 120000 +
         ((zoning_plan.filter (fun z => z.type = "green_space")).map Zone.area).sum * 50000) +
        ((infra_edits.filter (fun e => e.action = "add" ∧ e.type = "road")).map
          (fun e => e.specifications.length_km.getD 1)).sum * 500000 +
        ((infra_edits.filter (fun e => e.action = "add" ∧ e.type = "utility")).map
          (fun e => e.specifications.length_km.getD 1)).sum * 300000 +
        ((infra_edits.filter (fun e => e.action = "add" ∧ e.type = "building")).map
          (fun e => e.specifications.units.getD 1)).sum * 200000) ∧
    (cost_run_simulation default_cost_factors [residential_zone_1000] []
      sample_traffic_inputs 1000000).total_cost = 100000000 := by
  constructor
  · intro plan edits ti population
    show (calculate_infrastructure_cost default_cost_factors plan edits).zoning +
      (calculate_infrastructure_cost default_cost_factors plan edits).roads +
      (calculate_infrastructure_cost default_cost_factors plan edits).utilities +
      (calculate_infrastructure_cost default_cost_factors plan edits).buildings = _
    rw [calculate_infrastructure_cost, infra_foldl, zoning_foldl]
    simp [default_cost_factors] <;> ring
  · norm_num [cost_run_simulation, calculate_infrastructure_cost, zoning_cost_step,
      residential_zone_1000, default_cost_factors]

/-- C8: `cost_per_capita` equals `total_cost / max(population, 1)`, is
non-negative whenever areas and specification sizes are non-negative (the
denominator is at least 1, so the quotient is always finite), and is 0 for
an empty zoning plan with no infrastructure edits. -/
theorem c8_cost_per_capita_guarded (zoning_plan : List Zone) (infra_edits : List InfraEdit)
    (ti : TrafficInputs) (population : ℚ)
    (hA : ∀ z ∈ zoning_plan, 0 ≤ z.area)
    (hL : ∀ e ∈ infra_edits, 0 ≤ e.specifications.length_km.getD 1)
    (hU : ∀ e ∈ infra_edits, 0 ≤ e.specifications.units.getD 1) :
    (cost_run_simulation default_cost_factors zoning_plan infra_edits ti
        population).cost_per_capita =
      (cost_run_simulation default_cost_factors zoning_plan infra_edits ti
        population).total_cost / max population 1 ∧
    0 ≤ (cost_run_simulation default_cost_factors zoning_plan infra_edits ti
        population).cost_per_capita ∧
    (∀ (ti2 : TrafficInputs) (population2 : ℚ),
      (cost_run_simulation default_cost_factors [] [] ti2 population2).cost_per_capita = 0) := by
  have harea : ∀ (s : String),
      0 ≤ ((zoning_plan.filter (fun z => z.type = s)).map Zone.area).sum := by
    intro s
    apply List.sum_nonneg
    intro x hx
    obtain ⟨z, hz, rfl⟩ := List.mem_map.1 hx
    exact hA z (List.mem_filter.1 hz).1
  have hlen : ∀ (t : String),
      0 ≤ ((infra_edits.filter (fun e => e.action = "add" ∧ e.type = t)).map
        (fun e => e.specifications.length_km.getD 1)).sum := by
    intro t
    apply List.sum_nonneg
    intro x hx
    obtain ⟨e, he, rfl⟩ := List.mem_map.1 hx
    exact hL e (List.mem_filter.1 he).1
  have hunits :
      0 ≤ ((infra_edits.filter (fun e => e.action = "add" ∧ e.type = "building")).map
        (fun e => e.specifications.units.getD 1)).sum := by
    apply List.sum_nonneg
    intro x hx
    obtain ⟨e, he, rfl⟩ := List.mem_map.1 hx
    exact hU e (List.mem_filter.1 he).1
  have htot : 0 ≤ (cost_run_simulation default_cost_factors zoning_plan infra_edits ti
      population).total_cost := by
    rw [(c7_total_cost_formula).1 zoning_plan infra_edits ti population]
    have h1 := harea "residential"
    have h2 := harea "commercial"
    have h3 := harea "industrial"
    have h4 := harea "green_space"
    have h5 := hlen "road"
    have h6 := hlen "utility"
    nlinarith [hunits]
  refine ⟨rfl, ?_, ?_⟩
  · have hden : (0:ℚ) < max population 1 := lt_of_lt_of_le one_pos (le_max_right _ _)
    exact div_nonneg htot hden.le
  · intro ti2 population2
    show ((calculate_infrastructure_cost default_cost_factors [] []).zoning +
      (calculate_infrastructure_cost default_cost_factors [] []).roads +
      (calculate_infrastructure_cost default_cost_factors [] []).utilities +
      (calculate_infrastructure_cost default_cost_factors [] []).buildings) /
        max population2 1 = 0
    norm_num [calculate_infrastructure_cost]

/-- Witness for C8: the empty plan with population 0 has cost per capita 0
and the guarantee applies there. -/
theorem c8_witness :
    0 ≤ (cost_run_simulation default_cost_factors [] [] sample_traffic_inputs
      0).cost_per_capita ∧
    (cost_run_simulation default_cost_factors [] [] sample_traffic_inputs
      0).cost_per_capita = 0 := by
  have h := c8_cost_per_capita_guarded [] [] sample_traffic_inputs 0
    (by simp) (by simp) (by simp)
  exact ⟨h.2.1, h.2.2 sample_traffic_inputs 0⟩

lemma zone_emissions_foldl (pf : PollutionFactors) (l : List Zone) (acc : ZoneEmissions) :
    l.foldl (zone_emissions_step pf) acc =
      ⟨acc.residential + ((l.filter (fun z => z.type = "residential")).map Zone.area).sum *
         pf.residential_emissions,
       acc.commercial + ((l.filter (fun z => z.type = "commercial")).map Zone.area).sum *
         pf.commercial_emissions,
       acc.industrial + ((l.filter (fun z => z.type = "industrial")).map Zone.area).sum *
         pf.industrial_emissions⟩ := by
  induction l generalizing acc with
  | nil => simp
  | cons z l ih =>
    rw [List.foldl_cons, ih]
    unfold zone_emissions_step
    by_cases h1 : z.type = "residential"
    · simp [h1, ZoneEmissions.mk.injEq]
      ring
    · by_cases h2 : z.type = "commercial"
      · simp [h1, h2, ZoneEmissions.mk.injEq]
        ring
      · by_cases h3 : z.type = "industrial"
        · simp [h1, h2, h3, ZoneEmissions.mk.injEq]
          ring
        · simp [h1, h2, h3]

lemma weighted_area_foldl (c : ℚ) (s : String) (l : List Zone) (a : ℚ) :
    l.foldl (fun acc z => if z.type = s then acc + z.area * c else acc) a =
      a + ((l.filter (fun z => z.type = s)).map Zone.area).sum * c := by
  induction l generalizing a with
  | nil => simp
  | cons z l ih =>
    rw [List.foldl_cons, ih, List.filter_cons]
    by_cases h : z.type = s
    · rw [if_pos h, if_pos (decide_eq_true h), List.map_cons, List.sum_cons]
      ring
    · rw [if_neg h, if_neg (by simp [h])]

lemma plain_area_foldl (s : String) (l : List Zone) (a : ℚ) :
    l.foldl (fun acc z => if z.type = s then acc + z.area else acc) a =
      a + ((l.filter (fun z => z.type = s)).map Zone.area).sum := by
  induction l generalizing a with
  | nil => simp
  | cons z l ih =>
    rw [List.foldl_cons, ih, List.filter_cons]
    by_cases h : z.type = s
    · rw [if_pos h, if_pos (decide_eq_true h), List.map_cons, List.sum_cons]
      ring
    · rw [if_neg h, if_neg (by simp [h])]

lemma air_quality_index_nonneg (x y : ℚ) : 0 ≤ calculate_air_quality_index x y :=
  le_max_right _ _

lemma air_quality_index_le_100 (x y : ℚ) : calculate_air_quality_index x y ≤ 100 := by
  unfold calculate_air_quality_index
  have h0 : (0:ℚ) ≤ max (x - y) 0 := le_max_right _ _
  have h1 : 100 - max (x - y) 0 * (1/10) ≤ 100 := by nlinarith
  exact max_le h1 (by norm_num)

/-- C5: the pollution model's AQI equals
`max(100 - max(total_emissions - green_benefit, 0) * 0.1, 0)` with the
emission sums of the spec, and always lies in [0, 100] for non-negative
areas, non-negative density and ownership in [0, 1]. -/
theorem c5_air_quality_index_formula (zoning_plan : List Zone) (infra_edits : List InfraEdit)
    (ti : TrafficInputs)
    (hA : ∀ z ∈ zoning_plan, 0 ≤ z.area) (hd : 0 ≤ ti.population_density)
    (ho0 : 0 ≤ ti.vehicle_ownership) (ho1 : ti.vehicle_ownership ≤ 1) :
    (pollution_run_simulation default_pollution_factors zoning_plan infra_edits
        ti).air_quality_index =
      max (100 -
        max ((((zoning_plan.filter (fun z => z.type = "residential")).map Zone.area).sum * (1/2) +
          ((zoning_plan.filter (fun z => z.type = "commercial")).map Zone.area).sum * 1 +
          ((zoning_plan.filter (fun z => z.type = "industrial")).map Zone.area).sum * 2 +
          ti.population_density * ti.vehicle_ownership * (2/10) +
          ((zoning_plan.filter (fun z => z.type = "industrial")).map Zone.area).sum * 1000) -
          ((zoning_plan.filter (fun z => z.type = "green_space")).map Zone.area).sum * (3/10)) 0 *
        (1/10)) 0 ∧
    0 ≤ (pollution_run_simulation default_pollution_factors zoning_plan infra_edits
        ti).air_quality_index ∧
    (pollution_run_simulation default_pollution_factors zoning_plan infra_edits
        ti).air_quality_index ≤ 100 := by
  refine ⟨?_, air_quality_index_nonneg _ _, air_quality_index_le_100 _ _⟩
  show calculate_air_quality_index _ _ = _
  rw [calculate_zone_emissions, zone_emissions_foldl, calculate_co2_emissions,
    weighted_area_foldl, calculate_green_space_benefit, plain_area_foldl,
    calculate_traffic_emissions, calculate_air_quality_index]
  simp only [default_pollution_factors]
  congr 2
  ring

/-- Witness for C5 at the empty plan with the sample traffic inputs. -/
theorem c5_witness :
    0 ≤ (pollution_run_simulation default_pollution_factors [] [] sample_traffic_inputs
      ).air_quality_index ∧
    (pollution_run_simulation default_pollution_factors [] [] sample_traffic_inputs
      ).air_quality_index ≤ 100 := by
  have h := c5_air_quality_index_formula [] [] sample_traffic_inputs
    (by simp) (by norm_num [sample_traffic_inputs]) (by norm_num [sample_traffic_inputs])
    (by norm_num [sample_traffic_inputs])
  exact ⟨h.2.1, h.2.2⟩

/-- C9: for a single-edge road network the average travel time lies between
`10 * 0.8 * density * 0.001` and `10 * 1.2 * density * 0.001`, whatever
value in [0.8, 1.2] the uniform random perturbation takes. -/
theorem c9_single_edge_travel_time_bounds (zoning_plan : List Zone)
    (infra_edits : List InfraEdit) (ti : TrafficInputs) (rng : ℕ → ℚ)
    (h1 : build_road_network infra_edits = 1)
    (hd : 0 ≤ ti.population_density)
    (hr : ∀ i, 8/10 ≤ rng i ∧ rng i ≤ 12/10) :
    10 * (8/10) * (ti.population_density * (1/1000)) ≤
      (traffic_run_simulation zoning_plan infra_edits ti rng).avg_travel_time ∧
    (traffic_run_simulation zoning_plan infra_edits ti rng).avg_travel_time ≤
      10 * (12/10) * (ti.population_density * (1/1000)) := by
  have havg : (traffic_run_simulation zoning_plan infra_edits ti rng).avg_travel_time =
      10 * (ti.population_density * (1/1000) * rng 0) := by
    show (if _ then _ else _) = _
    rw [calculate_congestion, h1]
    simp [calculate_travel_times, List.range_succ]
  obtain ⟨hl, hu⟩ := hr 0
  rw [havg]
  constructor
  · nlinarith [mul_nonneg hd (show (0:ℚ) ≤ 10 * rng 0 - 8 by linarith)]
  · nlinarith [mul_nonneg hd (show (0:ℚ) ≤ 12 - 10 * rng 0 by linarith)]

/-- Witness for C9: one road edit, density 1000, draw 1. -/
theorem c9_witness :
    10 * (8/10) * ((sample_traffic_inputs.population_density) * (1/1000)) ≤
      (traffic_run_simulation [] [one_road_edit] sample_traffic_inputs
        (fun _ => 1)).avg_travel_time ∧
    (traffic_run_simulation [] [one_road_edit] sample_traffic_inputs
        (fun _ => 1)).avg_travel_time ≤
      10 * (12/10) * ((sample_traffic_inputs.population_density) * (1/1000)) := by
  exact c9_single_edge_travel_time_bounds [] [one_road_edit] sample_traffic_inputs (fun _ => 1)
    (by norm_num [build_road_network, one_road_edit])
    (by norm_num [sample_traffic_inputs])
    (fun i => by norm_num)

lemma subscript_metrics_except_ok {M : Type} (s : Option (Slot M)) (k : String) :
    except_ok (subscript_metrics s k) = slot_has_metrics s := by
  rcases s with _ | ⟨m, r, e⟩
  · rfl
  · cases m <;> rfl

/-- C1 (amended): the aggregator's comparative analysis and update diffs
complete without error exactly when all three model keys are present with
`metrics` sub-dicts; with any of the three absent they raise a `KeyError`
instead of working on the present subset. -/
theorem c1_amended_aggregation_requires_all_three (results : CombinedResults) :
    (except_ok (create_comparative_analysis results) = true ↔
      (slot_has_metrics results.traffic = true ∧ slot_has_metrics results.cost = true ∧
       slot_has_metrics results.pollution = true)) ∧
    (except_ok (generate_update_diffs results) = true ↔
      (slot_has_metrics results.traffic = true ∧ slot_has_metrics results.cost = true ∧
       slot_has_metrics results.pollution = true)) := by
  obtain ⟨t, c, p⟩ := results
  rcases t with _ | ⟨tm, tr, te⟩ <;> rcases c with _ | ⟨cm, cr, ce⟩ <;>
    rcases p with _ | ⟨pm, pr, pe⟩
  all_goals try cases tm
  all_goals try cases cm
  all_goals try cases pm
  all_goals simp [create_comparative_analysis, generate_update_diffs, subscript_metrics,
    slot_has_metrics, except_ok, Bind.bind, Except.bind]

/-- Counterexample to C1 as stated: on a combined structure holding only the
cost key, both aggregator operations raise a `KeyError` for the absent
traffic key instead of completing. -/
theorem c1_counterexample_cost_only_subset :
    create_comparative_analysis cost_only_aggregated = .error "KeyError: traffic" ∧
    generate_update_diffs cost_only_aggregated = .error "KeyError: traffic" ∧
    cost_only_aggregated.cost.isSome = true :=
  ⟨rfl, rfl, rfl⟩

/-- Witness for C1 (amended): on a fully populated combined structure both
operations succeed, and dropping any key makes them fail. -/
theorem c1_witness :
    except_ok (create_comparative_analysis (aggregate_results ⟨10, 1/2, 100⟩
      sample_cost_metrics ⟨80, 0, 0, [], "ok"⟩)) = true ∧
    except_ok (create_comparative_analysis cost_only_aggregated) = false := by
  constructor
  · exact (c1_amended_aggregation_requires_all_three _).1.2 ⟨rfl, rfl, rfl⟩
  · have h := (c1_amended_aggregation_requires_all_three cost_only_aggregated).1
    cases hx : except_ok (create_comparative_analysis cost_only_aggregated)
    · rfl
    · obtain ⟨h1, -, -⟩ := h.1 hx
      exact absurd h1 (by decide)

lemma run_simulation_endpoint_except_ok (input : SimulationInput)
    (ot : Except String TrafficMetrics) (oc : Except String CostMetrics)
    (op : Except String PollutionMetrics) :
    except_ok (run_simulation_endpoint input ot oc op) =
      except_ok (run_simulation_body input ot oc op) := by
  unfold run_simulation_endpoint
  cases run_simulation_body input ot oc op <;> rfl

/-- C2 (amended): no `AggregationError` exists; the endpoint returns
successfully exactly when every selected model's computation succeeded.  In
particular selecting zero models returns an empty combined result without
failing, while any failed selected model (not only all of them) surfaces as
a top-level failure, because overlay generation raises a `KeyError` on that
model's error slot. -/
theorem c2_amended_endpoint_failure_condition (input : SimulationInput)
    (ot : Except String TrafficMetrics) (oc : Except String CostMetrics)
    (op : Except String PollutionMetrics) :
    except_ok (run_simulation_endpoint input ot oc op) = true ↔
      (("traffic" ∈ input.models → except_ok ot = true) ∧
       ("cost" ∈ input.models → except_ok oc = true) ∧
       ("pollution" ∈ input.models → except_ok op = true)) := by
  rw [run_simulation_endpoint_except_ok]
  by_cases h1 : "traffic" ∈ input.models <;> by_cases h2 : "cost" ∈ input.models <;>
    by_cases h3 : "pollution" ∈ input.models <;> cases ot <;> cases oc <;> cases op <;>
    simp [run_simulation_body, run_selected_simulations, process_input_data,
      generate_traffic_overlay, generate_cost_overlay, generate_pollution_overlay,
      traffic_ok_slot, cost_ok_slot, pollution_ok_slot, error_slot, except_ok,
      h1, h2, h3, Bind.bind, Except.bind, Pure.pure, Except.pure]

/-- Counterexample to C2 as stated: selecting zero models does not raise any
error (the endpoint returns a combined result), and a partial failure (one
of two selected models failing) surfaces as a top-level failure even though
not every selected model failed. -/
theorem c2_counterexample_zero_and_partial :
    except_ok (run_simulation_endpoint zero_models_input (.error "boom") (.error "boom")
      (.error "boom")) = true ∧
    except_ok (run_simulation_endpoint traffic_cost_input (.error "boom")
      (.ok sample_cost_metrics) (.error "unused")) = false :=
  ⟨rfl, rfl⟩

/-- Witness for C2 (amended): the zero-model request passes the
success criterion vacuously and indeed succeeds. -/
theorem c2_witness :
    except_ok (run_simulation_endpoint zero_models_input (.error "boom") (.error "boom")
      (.error "boom")) = true := by
  refine (c2_amended_endpoint_failure_condition zero_models_input _ _ _).2 ⟨?_, ?_, ?_⟩ <;>
    intro hmem <;> exact absurd hmem (by decide)

lemma all_error_summary (s1 s2 s3 : String) :
    generate_comprehensive_summary
      ⟨some (error_slot s1), some (error_slot s2), some (error_slot s3)⟩ =
      ⟨"This urban planning simulation indicates excellent traffic flow with moderate air quality. The total project cost is relatively low, amounting to $0.",
       [],
       ["Regular monitoring and reporting of key metrics.",
        "Community engagement on planning decisions and impacts."]⟩ := by
  simp only [generate_comprehensive_summary, generate_executive_summary, generate_key_findings,
    generate_recommendations, dedup_preserving_order, error_slot]
  norm_num
  decide

/-- C3: an exception inside a selected model's computation is converted into
an `error` entry in that model's slot while every other selected model's
slot is determined solely by its own outcome; with all three selected models
raising, the combined result holds three error entries and the comprehensive
summary still returns non-empty generic content without raising. -/
theorem c3_fan_out_error_isolation (pd : ProcessedData) (ot : Except String TrafficMetrics)
    (oc : Except String CostMetrics) (op : Except String PollutionMetrics) :
    (∀ m, "traffic" ∈ pd.models_to_run → ot = .error m →
      (run_selected_simulations pd ot oc op).traffic =
        some (error_slot ("Traffic simulation failed: " ++ m))) ∧
    (∀ m, "cost" ∈ pd.models_to_run → oc = .error m →
      (run_selected_simulations pd ot oc op).cost =
        some (error_slot ("Cost simulation failed: " ++ m))) ∧
    (∀ m, "pollution" ∈ pd.models_to_run → op = .error m →
      (run_selected_simulations pd ot oc op).pollution =
        some (error_slot ("Pollution simulation failed: " ++ m))) ∧
    (∀ t, "traffic" ∈ pd.models_to_run → ot = .ok t →
      (run_selected_simulations pd ot oc op).traffic = some (traffic_ok_slot t)) ∧
    (∀ c, "cost" ∈ pd.models_to_run → oc = .ok c →
      (run_selected_simulations pd ot oc op).cost = some (cost_ok_slot c)) ∧
    (∀ p, "pollution" ∈ pd.models_to_run → op = .ok p →
      (run_selected_simulations pd ot oc op).pollution = some (pollution_ok_slot p)) ∧
    (∀ mt mc mp, "traffic" ∈ pd.models_to_run → "cost" ∈ pd.models_to_run →
      "pollution" ∈ pd.models_to_run → ot = .error mt → oc = .error mc → op = .error mp →
      (generate_comprehensive_summary
        (run_selected_simulations pd ot oc op)).executive_summary ≠ "" ∧
      (generate_comprehensive_summary
        (run_selected_simulations pd ot oc op)).recommendations ≠ []) := by
  refine ⟨?_, ?_, ?_, ?_, ?_, ?_, ?_⟩
  · intro m h he
    subst he
    simp [run_selected_simulations, h]
  · intro m h he
    subst he
    simp [run_selected_simulations, h]
  · intro m h he
    subst he
    simp [run_selected_simulations, h]
  · intro t h he
    subst he
    simp [run_selected_simulations, h]
  · intro c h he
    subst he
    simp [run_selected_simulations, h]
  · intro p h he
    subst he
    simp [run_selected_simulations, h]
  · intro mt mc mp h1 h2 h3 e1 e2 e3
    subst e1; subst e2; subst e3
    have hres : run_selected_simulations pd (.error mt) (.error mc) (.error mp) =
        ⟨some (error_slot ("Traffic simulation failed: " ++ mt)),
         some (error_slot ("Cost simulation failed: " ++ mc)),
         some (error_slot ("Pollution simulation failed: " ++ mp))⟩ := by
      simp [run_selected_simulations, h1, h2, h3]
    rw [hres, all_error_summary]
    exact ⟨by decide, by decide⟩

/-- Witness for C3: all three selected models raise concrete exceptions. -/
theorem c3_witness :
    (run_selected_simulations all_models_processed (.error "boom1") (.error "boom2")
      (.error "boom3")).traffic =
        some (error_slot ("Traffic simulation failed: " ++ "boom1")) ∧
    (run_selected_simulations all_models_processed (.error "boom1") (.error "boom2")
      (.error "boom3")).cost =
        some (error_slot ("Cost simulation failed: " ++ "boom2")) ∧
    (run_selected_simulations all_models_processed (.error "boom1") (.error "boom2")
      (.error "boom3")).pollution =
        some (error_slot ("Pollution simulation failed: " ++ "boom3")) ∧
    (generate_comprehensive_summary (run_selected_simulations all_models_processed
      (.error "boom1") (.error "boom2") (.error "boom3"))).executive_summary ≠ "" ∧
    (generate_comprehensive_summary (run_selected_simulations all_models_processed
      (.error "boom1") (.error "boom2") (.error "boom3"))).recommendations ≠ [] := by
  have h := c3_fan_out_error_isolation all_models_processed (.error "boom1") (.error "boom2")
    (.error "boom3")
  have hm1 : "traffic" ∈ all_models_processed.models_to_run := by decide
  have hm2 : "cost" ∈ all_models_processed.models_to_run := by decide
  have hm3 : "pollution" ∈ all_models_processed.models_to_run := by decide
  obtain ⟨ha, hb, hc, -, -, -, hg⟩ := h
  obtain ⟨hs1, hs2⟩ := hg "boom1" "boom2" "boom3" hm1 hm2 hm3 rfl rfl rfl
  exact ⟨ha "boom1" hm1 rfl, hb "boom2" hm2 rfl, hc "boom3" hm3 rfl, hs1, hs2⟩

lemma string_data_append (s t : String) : (s ++ t).data = s.data ++ t.data := rfl

lemma not_mentions_of_missing_char (s sub : String) (c : Char) (hc : c ∈ sub.data)
    (hs : c ∉ s.data) : ¬ mentions s sub :=
  fun h => hs (h.subset hc)

lemma digitCharsAux_mem (fuel n : ℕ) (c : Char) (h : c ∈ digitCharsAux fuel n) :
    ∃ d, d < 10 ∧ c = Nat.digitChar d := by
  induction fuel generalizing n with
  | zero => simp [digitCharsAux] at h
  | succ fuel ih =>
    rw [digitCharsAux] at h
    by_cases hn : n = 0
    · rw [if_pos hn] at h
      simp at h
    · rw [if_neg hn] at h
      rcases List.mem_append.1 h with h' | h'
      · exact ih _ h'
      · refine ⟨n % 10, Nat.mod_lt _ (by norm_num), ?_⟩
        simpa using h'

lemma digitsString_mem (n : ℕ) (c : Char) (h : c ∈ (digitsString n).data) :
    ∃ d, d < 10 ∧ c = Nat.digitChar d := by
  unfold digitsString at h
  by_cases hn : n = 0
  · rw [if_pos hn] at h
    have hc : c = '0' := by simpa using h
    exact ⟨0, by norm_num, by rw [hc]; rfl⟩
  · rw [if_neg hn] at h
    exact digitCharsAux_mem _ _ _ h

lemma pyFmt0_mem (q : ℚ) (c : Char) (h : c ∈ (pyFmt0 q).data) :
    c = '-' ∨ ∃ d, d < 10 ∧ c = Nat.digitChar d := by
  unfold pyFmt0 intString at h
  rw [string_data_append] at h
  rcases List.mem_append.1 h with h' | h'
  · by_cases hz : pyRound q < 0
    · rw [if_pos hz] at h'
      exact Or.inl (by simpa using h')
    · rw [if_neg hz] at h'
      simp at h'
  · exact Or.inr (digitsString_mem _ _ h')

lemma digitChar_ne_f_q : ∀ d, d < 10 → Nat.digitChar d ≠ 'f' ∧ Nat.digitChar d ≠ 'q' := by
  decide

lemma pyFmt0_no_f (q : ℚ) : 'f' ∉ (pyFmt0 q).data := by
  intro h
  rcases pyFmt0_mem q 'f' h with h' | ⟨d, hd, h'⟩
  · exact absurd h' (by decide)
  · exact (digitChar_ne_f_q d hd).1 h'.symm

lemma pyFmt0_no_q (q : ℚ) : 'q' ∉ (pyFmt0 q).data := by
  intro h
  rcases pyFmt0_mem q 'q' h with h' | ⟨d, hd, h'⟩
  · exact absurd h' (by decide)
  · exact (digitChar_ne_f_q d hd).2 h'.symm

lemma cost_only_key_findings (m : CostMetricsDict) :
    generate_key_findings (cost_only m) =
      ["Total project cost estimated at $" ++ pyFmt0 m.total_cost ++ " ($" ++
       pyFmt0 m.cost_per_capita ++ " per capita)."] := rfl

lemma cost_only_recommendations (m : CostMetricsDict) :
    generate_recommendations (cost_only m) =
      if m.total_cost > 10000000 then
        ["Consider phasing the project to manage costs.",
         "Explore public-private partnerships to share costs.",
         "Regular monitoring and reporting of key metrics.",
         "Community engagement on planning decisions and impacts."]
      else
        ["Regular monitoring and reporting of key metrics.",
         "Community engagement on planning decisions and impacts."] := by
  by_cases h : m.total_cost > 10000000
  · rw [if_pos h]
    simp only [generate_recommendations, cost_only, if_pos h]
    decide
  · rw [if_neg h]
    simp only [generate_recommendations, cost_only, if_neg h]
    decide

/-- C4 (amended): with only the cost key present, `key_findings` is exactly
the one cost-derived string and neither it nor the recommendations mention
"traffic" or "air quality"; the executive summary, however, narrates absent
models with default descriptors (see the counterexample). -/
theorem c4_amended_findings_omit_absent_models (m : CostMetricsDict) :
    generate_key_findings (cost_only m) =
      ["Total project cost estimated at $" ++ pyFmt0 m.total_cost ++ " ($" ++
       pyFmt0 m.cost_per_capita ++ " per capita)."] ∧
    (∀ s ∈ generate_key_findings (cost_only m),
      ¬ mentions s "traffic" ∧ ¬ mentions s "air quality") ∧
    (∀ s ∈ generate_recommendations (cost_only m),
      ¬ mentions s "traffic" ∧ ¬ mentions s "air quality") := by
  refine ⟨cost_only_key_findings m, ?_, ?_⟩
  · intro s hs
    rw [cost_only_key_findings] at hs
    have hs' : s = "Total project cost estimated at $" ++ pyFmt0 m.total_cost ++ " ($" ++
        pyFmt0 m.cost_per_capita ++ " per capita)." := by simpa using hs
    subst hs'
    constructor
    · refine not_mentions_of_missing_char _ _ 'f' (by decide) ?_
      intro hf
      simp only [string_data_append, List.mem_append] at hf
      rcases hf with ((((hf | hf) | hf) | hf) | hf)
      · exact absurd hf (by decide)
      · exact pyFmt0_no_f _ hf
      · exact absurd hf (by decide)
      · exact pyFmt0_no_f _ hf
      · exact absurd hf (by decide)
    · refine not_mentions_of_missing_char _ _ 'q' (by decide) ?_
      intro hq
      simp only [string_data_append, List.mem_append] at hq
      rcases hq with ((((hq | hq) | hq) | hq) | hq)
      · exact absurd hq (by decide)
      · exact pyFmt0_no_q _ hq
      · exact absurd hq (by decide)
      · exact pyFmt0_no_q _ hq
      · exact absurd hq (by decide)
  · intro s hs
    rw [cost_only_recommendations] at hs
    by_cases h : m.total_cost > 10000000
    · rw [if_pos h] at hs
      fin_cases hs <;> exact ⟨by decide, by decide⟩
    · rw [if_neg h] at hs
      fin_cases hs <;> exact ⟨by decide, by decide⟩

lemma cost_only_example_summary :
    generate_comprehensive_summary cost_only_example =
      ⟨"This urban planning simulation indicates excellent traffic flow with moderate air quality. The total project cost is high, amounting to $5000000.",
       ["Total project cost estimated at $5000000 ($500 per capita)."],
       ["Regular monitoring and reporting of key metrics.",
        "Community engagement on planning decisions and impacts."]⟩ := by
  simp only [generate_comprehensive_summary, generate_executive_summary, generate_key_findings,
    generate_recommendations, dedup_preserving_order, cost_only_example, cost_only]
  norm_num
  decide

set_option maxRecDepth 4000 in
/-- Counterexample to C4 as stated: on `{"cost": {...}}` alone, the
executive summary part of the comprehensive summary does reference both
"traffic" and "air quality" (via default descriptors for the absent
models), even though `key_findings` is the single cost-derived string. -/
theorem c4_counterexample_summary_mentions_absent_models :
    mentions (generate_comprehensive_summary cost_only_example).executive_summary "traffic" ∧
    mentions (generate_comprehensive_summary cost_only_example).executive_summary
      "air quality" ∧
    (generate_comprehensive_summary cost_only_example).key_findings =
      ["Total project cost estimated at $5000000 ($500 per capita)."] := by
  rw [cost_only_example_summary]
  exact ⟨by decide, by decide, rfl⟩
